import Mathlib

/-!
Verification of the session-resilience layer of `src/app/lib/realtimeConnection.ts`
(`createRealtimeConnection`): a shallow embedding of its quality sampling,
signaling exchange, latency-monitor wrapper, reconnection loop, guarded channel
sends, heartbeat timer and optimizer write-back, together with theorems about
the spec's testable properties.
-/

namespace RealtimeConnection

/-! ## Data model -/

/-- Wire message kinds of the control channel (spec §3 `ControlMessage`). -/
inductive ControlType where
  | heartbeat
  | audio_data
  | context_update
  | context_alert
deriving DecidableEq, Repr

/-- A serialized control message: `{type, data?, timestamp}` (spec §6). -/
structure ControlMessage where
  type : ControlType
  data : Option String
  timestamp : ℕ
deriving DecidableEq, Repr

/-- JavaScript runtime errors relevant to the embedded code paths. -/
inductive JsError where
  | typeError (msg : String)
  | invalidStateError
deriving DecidableEq, Repr

/-! ## Quality Sampler (lines 114-137)

The sampling tick iterates over the stats reports, accumulates
`packetsLost`/`packetsReceived` over reports whose `type` is `"inbound-rtp"`
(`report.packetsLost || 0` treats a missing field as 0), then computes
`packetsReceived ? (packetsReceived - packetsLost) / packetsReceived : 1`.
-/

/-- One WebRTC stats report as the sampler reads it: a `type` tag and the two
optional packet counters (`|| 0` in the source collapses a missing field to 0). -/
structure StatsReport where
  type : String
  packetsLost : Option ℕ
  packetsReceived : Option ℕ
deriving DecidableEq, Repr

/-- The `stats.forEach` accumulation (lines 116-124): fold the reports, adding
both counters of every `"inbound-rtp"` report. Returns (packetsLost, packetsReceived). -/
def accumPackets (stats : List StatsReport) : ℕ × ℕ :=
  stats.foldl
    (fun acc r =>
      if r.type = "inbound-rtp" then
        (acc.1 + r.packetsLost.getD 0, acc.2 + r.packetsReceived.getD 0)
      else acc)
    (0, 0)

/-- Accumulated packetsLost over the inbound-rtp reports. -/
def accumLost (stats : List StatsReport) : ℕ := (accumPackets stats).1

/-- Accumulated packetsReceived over the inbound-rtp reports. -/
def accumReceived (stats : List StatsReport) : ℕ := (accumPackets stats).2

/-- The quality score of one sampling tick (lines 126-127):
`packetsReceived ? (packetsReceived - packetsLost) / packetsReceived : 1`.
JavaScript subtraction is over signed numbers, so the numerator is the signed
difference; there is no clamping in the source. -/
def qualityScore (stats : List StatsReport) : ℚ :=
  let lost := accumLost stats
  let received := accumReceived stats
  if received ≠ 0 then ((received : ℚ) - (lost : ℚ)) / (received : ℚ) else 1

/-- Clamp to [0,1], following the spec's words (spec §3: "clamped to [0,1]").
This is the spec-side definition, used only to compare against `qualityScore`. -/
def clamp01 (x : ℚ) : ℚ := max 0 (min 1 x)

/-! ## Signaling exchange (lines 34-55)

After `setLocalDescription(offer)`, the offer SDP is POSTed to the fixed
endpoint; the response body text is wrapped as `{type: "answer", sdp: body}`
and passed to `setRemoteDescription` unconditionally. The response status is
never inspected and there is no failure path in this code.
-/

/-- An HTTP response as `fetch` returns it: a status code and a body text. -/
structure HttpResponse where
  status : ℕ
  body : String
deriving DecidableEq, Repr

/-- A session description (`RTCSessionDescriptionInit`): `{type, sdp}`. -/
structure SessionDescription where
  type : String
  sdp : String
deriving DecidableEq, Repr

/-- The atomic transport/network operations performed by the signaling portion
of `createRealtimeConnection`. -/
inductive ConnStep where
  | setLocalDescription (offerSdp : String)
  | postOffer (url : String) (body : String)
  | setRemoteDescription (d : SessionDescription)
deriving DecidableEq, Repr

/-- The signaling endpoint URL (lines 37-38, 40). -/
def signalingUrl : String :=
  "https://api.openai.com/v1/realtime?model=gpt-4o-realtime-preview-2024-12-17"

/-- The operation trace of the signaling exchange (lines 34-55), as a function
of the local offer SDP and the HTTP response the endpoint returns:
set the local description, POST the offer, then build
`{type: "answer", sdp: response body}` and apply it as the remote description.
No branch depends on `resp.status`. -/
def signalingSteps (offerSdp : String) (resp : HttpResponse) : List ConnStep :=
  [ConnStep.setLocalDescription offerSdp,
   ConnStep.postOffer signalingUrl offerSdp,
   ConnStep.setRemoteDescription { type := "answer", sdp := resp.body }]

/-- The remote descriptions applied during a trace. -/
def appliedRemote (steps : List ConnStep) : List SessionDescription :=
  steps.filterMap fun s =>
    match s with
    | ConnStep.setRemoteDescription d => some d
    | _ => none

/-- Test for a 2xx status, following the spec's words ("non-2xx ⇒ SignalingError"). -/
def is2xx (status : ℕ) : Bool := decide (200 ≤ status ∧ status < 300)

end RealtimeConnection

namespace RealtimeConnection

/-! ## Theorems: C1 (quality score) -/

/-- A stats snapshot whose single inbound-rtp report has more packets lost
than received (heavy loss plus late-arriving loss reports makes this a
reachable WebRTC state). -/
def c1Stats : List StatsReport :=
  [{ type := "inbound-rtp", packetsLost := some 2, packetsReceived := some 1 }]

/-- Unfolding equation for `qualityScore` in terms of the accumulated counters. -/
theorem qualityScore_eq (stats : List StatsReport) :
    qualityScore stats =
      if accumReceived stats ≠ 0 then
        ((accumReceived stats : ℚ) - (accumLost stats : ℚ)) / (accumReceived stats : ℚ)
      else 1 := rfl

/-- C1 counterexample: with 1 packet received and 2 lost, the computed score is
`(1 - 2)/1 = -1`, which lies outside `[0,1]` and differs from the clamped value
the claim specifies — the source never clamps. -/
theorem c1_score_not_clamped :
    qualityScore c1Stats = -1 ∧
    qualityScore c1Stats < 0 ∧
    qualityScore c1Stats ≠ clamp01 ((((1:ℚ) - 2)) / 1) := by
  have hl : accumLost c1Stats = 2 := by decide
  have hr : accumReceived c1Stats = 1 := by decide
  have h : qualityScore c1Stats = -1 := by
    rw [qualityScore_eq, hl, hr]
    norm_num
  refine ⟨h, by rw [h]; norm_num, by rw [h]; norm_num [clamp01]⟩

/-- C1 (amended): on every sampling tick, the score is 1 when no packets were
received, and otherwise is `(received - lost)/received` with no clamping: it
never exceeds 1, and it agrees with the claimed clamped value (and lies in
`[0,1]`) exactly when `lost ≤ received`; when `lost > received` it is negative. -/
theorem c1_quality_score_amended (stats : List StatsReport) :
    (accumReceived stats = 0 → qualityScore stats = 1) ∧
    (accumReceived stats ≠ 0 →
      qualityScore stats
        = ((accumReceived stats : ℚ) - (accumLost stats : ℚ)) / (accumReceived stats : ℚ)) ∧
    qualityScore stats ≤ 1 ∧
    (accumLost stats ≤ accumReceived stats →
      0 ≤ qualityScore stats ∧ qualityScore stats = clamp01 (qualityScore stats)) := by
  by_cases h0 : accumReceived stats = 0
  · have h1 : qualityScore stats = 1 := by
      rw [qualityScore_eq, if_neg (not_not_intro h0)]
    refine ⟨fun _ => h1, fun h => absurd h0 h, le_of_eq h1, fun _ => ?_⟩
    rw [h1]
    norm_num [clamp01]
  · have hq : qualityScore stats
        = ((accumReceived stats : ℚ) - (accumLost stats : ℚ)) / (accumReceived stats : ℚ) := by
      rw [qualityScore_eq, if_pos h0]
    have hrpos : (0 : ℚ) < (accumReceived stats : ℚ) := by
      exact_mod_cast Nat.pos_of_ne_zero h0
    have hle1 : qualityScore stats ≤ 1 := by
      rw [hq, div_le_one hrpos]
      have : (0 : ℚ) ≤ (accumLost stats : ℚ) := by positivity
      linarith
    refine ⟨fun h => absurd h h0, fun _ => hq, hle1, fun hlr => ?_⟩
    have hcast : (accumLost stats : ℚ) ≤ (accumReceived stats : ℚ) := by exact_mod_cast hlr
    have hnonneg : 0 ≤ qualityScore stats := by
      rw [hq]
      apply div_nonneg _ (le_of_lt hrpos)
      linarith
    refine ⟨hnonneg, ?_⟩
    rw [clamp01, min_eq_right hle1, max_eq_right hnonneg]

/-- Witness for C1 (amended): one inbound-rtp report with 1 lost and 4 received
gives score `3/4`, in `[0,1]` and equal to its own clamp. -/
theorem c1_quality_score_amended_witness :
    qualityScore [{ type := "inbound-rtp", packetsLost := some 1, packetsReceived := some 4 }]
        = 3 / 4 ∧
    0 ≤ qualityScore
        [{ type := "inbound-rtp", packetsLost := some 1, packetsReceived := some 4 }] ∧
    qualityScore [{ type := "inbound-rtp", packetsLost := some 1, packetsReceived := some 4 }]
        = clamp01 (qualityScore
            [{ type := "inbound-rtp", packetsLost := some 1, packetsReceived := some 4 }]) := by
  have h := c1_quality_score_amended
    [{ type := "inbound-rtp", packetsLost := some 1, packetsReceived := some 4 }]
  have h2 := h.2.1 (by decide)
  have h4 := h.2.2.2 (by decide)
  refine ⟨?_, h4.1, h4.2⟩
  rw [h2]
  have hl : accumLost
      [{ type := "inbound-rtp", packetsLost := some 1, packetsReceived := some 4 }] = 1 := by
    decide
  have hr : accumReceived
      [{ type := "inbound-rtp", packetsLost := some 1, packetsReceived := some 4 }] = 4 := by
    decide
  rw [hl, hr]
  norm_num

/-! ## Theorems: C2 (signaling exchange) -/

/-- C2 counterexample: a 500 response with body `"Internal Server Error"` is
still applied as the remote description — `signalingSteps` contains a
`setRemoteDescription` built from the error body, the status is non-2xx, and
no failure is reported (the trace is the same full trace as for a 200). -/
theorem c2_non2xx_still_applied :
    is2xx 500 = false ∧
    ConnStep.setRemoteDescription { type := "answer", sdp := "Internal Server Error" }
      ∈ signalingSteps "v=0 offer" { status := 500, body := "Internal Server Error" } ∧
    appliedRemote (signalingSteps "v=0 offer" { status := 500, body := "Internal Server Error" })
      = [{ type := "answer", sdp := "Internal Server Error" }] := by
  refine ⟨rfl, ?_, rfl⟩
  simp [signalingSteps]

/-- C2 (amended): the exchange never fails and never inspects the response
status: for every offer and every response, the trace ends by applying
`{type: "answer", sdp: response body}` as the remote description, and two
responses with the same body but different statuses yield identical traces.
There is no `SignalingError` path in the code. -/
theorem c2_signaling_amended :
    (∀ (offerSdp : String) (resp : HttpResponse),
      appliedRemote (signalingSteps offerSdp resp) = [{ type := "answer", sdp := resp.body }]) ∧
    (∀ (offerSdp : String) (s s' : ℕ) (body : String),
      signalingSteps offerSdp { status := s, body := body }
        = signalingSteps offerSdp { status := s', body := body }) := by
  constructor
  · intro offerSdp resp
    simp [signalingSteps, appliedRemote]
  · intro offerSdp s s' body
    rfl

/-! ## Latency Monitor (lines 140-145)

Nothing in `createRealtimeConnection` assigns `dc.onmessage` before line 140,
so the captured `originalHandler` is the slot's initial value `null`. We embed
a handler as a function from the inbound message to the list of observable
actions it performs; calling a `null` handler throws `TypeError` (JavaScript
semantics), aborting the wrapper before the metric is recorded.
-/

/-- Observable actions of the inbound-message path. -/
inductive TraceAction where
  | callOriginal (m : String)
  | recordMetric (name : String) (value : ℚ)
  | throwTypeError
deriving DecidableEq, Repr

/-- The value of the `dc.onmessage` slot at the moment line 140 executes:
nothing in the function has assigned it, so it is `null` (`none`). -/
def dcOnMessageBeforeWrap : Option (String → List TraceAction) := none

/-- The wrapped `onmessage` handler (lines 140-145): read the clock, invoke
`originalHandler` on the event, then record the elapsed time into the
`"responseLatency"` metric. When `originalHandler` is `null`, the call throws
`TypeError` and the metric is never recorded; otherwise the original handler's
actions happen synchronously, followed by the metric record. `latency` supplies
the elapsed-clock reading observed for each message. -/
def wrappedOnMessage (originalHandler : Option (String → List TraceAction))
    (latency : String → ℚ) (m : String) : List TraceAction :=
  match originalHandler with
  | none => [TraceAction.throwTypeError]
  | some h => h m ++ [TraceAction.recordMetric "responseLatency" (latency m)]

/-- Delivery of a sequence of inbound messages, in order, each through the
wrapped handler. -/
def deliverAll (originalHandler : Option (String → List TraceAction))
    (latency : String → ℚ) (ms : List String) : List TraceAction :=
  ms.flatMap (wrappedOnMessage originalHandler latency)

/-- The messages with which the underlying handler was invoked, in order. -/
def originalCalls (t : List TraceAction) : List String :=
  t.filterMap fun a =>
    match a with
    | TraceAction.callOriginal m => some m
    | _ => none

/-! ## Theorems: C3 (wrapper with absent next handler) -/

/-- C3: with the next handler absent — which is the actual state of
`dc.onmessage` when the wrapper is installed — delivering a message through the
wrapped handler is not a no-op: it throws a `TypeError` (calling `null`), and
the latency metric is never recorded. The claim's "acts as a no-op and does
not raise an error" is exactly what the code fails to do. -/
theorem c3_absent_handler_throws :
    wrappedOnMessage dcOnMessageBeforeWrap (fun _ => 0) "response.delta"
      = [TraceAction.throwTypeError] ∧
    originalCalls (wrappedOnMessage dcOnMessageBeforeWrap (fun _ => 0) "response.delta") = [] := by
  exact ⟨rfl, rfl⟩

/-! ## Theorems: C9 (order preservation of the wrapper) -/

/-- C9: for every underlying handler `h` and every message sequence, the wrapped
handler invokes `h` synchronously on each message in arrival order — the full
trace is exactly each message's handler actions followed by its latency record,
with no buffering, dropping or interleaving; instrumenting the underlying
handler to log its invocations shows it receives exactly the original sequence. -/
theorem c9_wrapper_preserves_order (latency : String → ℚ) (ms : List String) :
    (∀ h : String → List TraceAction,
      deliverAll (some h) latency ms
        = ms.flatMap fun m => h m ++ [TraceAction.recordMetric "responseLatency" (latency m)]) ∧
    originalCalls (deliverAll (some fun m => [TraceAction.callOriginal m]) latency ms) = ms := by
  constructor
  · intro h
    rfl
  · induction ms with
    | nil => rfl
    | cons m rest ih =>
      simp only [deliverAll, List.flatMap_cons, wrappedOnMessage] at ih ⊢
      simp only [originalCalls, List.filterMap_append, List.filterMap_cons,
        List.filterMap_nil] at ih ⊢
      simpa using ih

/-! ## Reconnection handler (lines 85-106)

`pc` and `dc` are declared with `const` (lines 21, 32); the reconnection
handler's success path (lines 96-97) assigns to them, which in strict-mode
JavaScript throws `TypeError: Assignment to constant variable.` (and is
rejected by the TypeScript compiler as TS2588). That throw happens inside the
`try` block, so the `catch` treats even a successful establish attempt as a
failure: `attempts++` and a `setTimeout` delay of `1000 * attempts` ms follow
in every iteration, and the loop always runs to `options.reconnectAttempts`.
The loop body contains no state transition and surfaces no error or event on
exhaustion — it simply returns.
-/

/-- Observable events of one run of the reconnection handler. The last three
constructors are the spec's vocabulary (handle swap, transition to Closed,
`ReconnectExhausted`); theorems show which of them the code actually emits. -/
inductive ReconnectEvent where
  | establishAttempt (i : ℕ)
  | typeErrorCaught
  | delayMs (d : ℕ)
  | handleSwap
  | transitionClosed
  | reconnectExhausted
deriving DecidableEq, Repr

/-- The `while (attempts < options.reconnectAttempts)` loop (lines 88-103),
with `fuel = reconnectAttempts - attempts` remaining iterations and `attempts`
the current counter. `establishOk i` tells whether the i-th recursive
`createRealtimeConnection` call succeeds; on success the `pc = newPc`
assignment throws `TypeError` (const binding), so control reaches the `catch`
in either case: increment `attempts` and wait `1000 * attempts` ms. -/
def reconnectGo (establishOk : ℕ → Bool) : ℕ → ℕ → List ReconnectEvent
  | 0, _ => []
  | fuel + 1, attempts =>
    ReconnectEvent.establishAttempt attempts ::
      ((if establishOk attempts then [ReconnectEvent.typeErrorCaught] else []) ++
        ReconnectEvent.delayMs (1000 * (attempts + 1)) ::
          reconnectGo establishOk fuel (attempts + 1))

/-- The whole `oniceconnectionstatechange` body on a `disconnected` transition
(lines 86-104): start with `attempts = 0` and run the retry loop. -/
def reconnectOnDisconnected (reconnectAttempts : ℕ) (establishOk : ℕ → Bool) :
    List ReconnectEvent :=
  reconnectGo establishOk reconnectAttempts 0

/-- Is the event an establish attempt? -/
def isEstablishAttempt : ReconnectEvent → Bool
  | ReconnectEvent.establishAttempt _ => true
  | _ => false

/-- The delay (in ms) carried by a delay event, if any. -/
def delayOf : ReconnectEvent → Option ℕ
  | ReconnectEvent.delayMs d => some d
  | _ => none

/-- Closed form of the all-attempts-fail loop: attempts `a, a+1, …, a+fuel-1`,
each followed by a delay of `1000 * (attempt index + 1)` ms. -/
theorem reconnectGo_all_fail (establishOk : ℕ → Bool)
    (hfail : ∀ i, establishOk i = false) :
    ∀ fuel attempts, reconnectGo establishOk fuel attempts
      = (List.range' attempts fuel).flatMap
          fun i => [ReconnectEvent.establishAttempt i, ReconnectEvent.delayMs (1000 * (i + 1))] := by
  intro fuel
  induction fuel with
  | zero => intro attempts; rfl
  | succ n ih =>
    intro attempts
    simp only [reconnectGo, hfail attempts, if_neg Bool.false_ne_true, List.nil_append,
      List.range'_succ, List.flatMap_cons, ih (attempts + 1)]
    rfl

/-! ## Theorems: C4 (bounded retry with linear backoff) -/

/-- C4 counterexample: `reconnectAttempts = 1` with the single attempt failing.
The handler's full event list is one establish attempt and one 1000 ms delay:
it emits zero `ReconnectExhausted` events — not "exactly one" — and performs
no transition to Closed. -/
theorem c4_no_exhausted_event :
    reconnectOnDisconnected 1 (fun _ => false)
      = [ReconnectEvent.establishAttempt 0, ReconnectEvent.delayMs 1000] ∧
    (reconnectOnDisconnected 1 (fun _ => false)).count ReconnectEvent.reconnectExhausted ≠ 1 ∧
    ReconnectEvent.transitionClosed ∉ reconnectOnDisconnected 1 (fun _ => false) := by
  refine ⟨rfl, by decide, by decide⟩

/-- Every loop iteration performs exactly one establish attempt, whether or not
the attempt succeeds (a success is converted into a caught `TypeError` by the
const assignment, so the loop never exits early). -/
theorem reconnectGo_countP_attempts (establishOk : ℕ → Bool) :
    ∀ fuel attempts,
      (reconnectGo establishOk fuel attempts).countP isEstablishAttempt = fuel := by
  intro fuel
  induction fuel with
  | zero => intro attempts; rfl
  | succ n ih =>
    intro attempts
    by_cases h : establishOk attempts
    · simp [reconnectGo, h, List.countP_cons, isEstablishAttempt, ih (attempts + 1)]
    · simp [reconnectGo, h, List.countP_cons, isEstablishAttempt, ih (attempts + 1)]

/-- The delays emitted by the loop: `1000 * i` ms for `i` running from
`attempts + 1` to `attempts + fuel`. -/
theorem reconnectGo_delays (establishOk : ℕ → Bool) :
    ∀ fuel attempts,
      (reconnectGo establishOk fuel attempts).filterMap delayOf
        = (List.range' (attempts + 1) fuel).map (fun i => 1000 * i) := by
  intro fuel
  induction fuel with
  | zero => intro attempts; rfl
  | succ n ih =>
    intro attempts
    by_cases h : establishOk attempts
    · simp [reconnectGo, h, List.range'_succ, delayOf, ih (attempts + 1)]
    · simp [reconnectGo, h, List.range'_succ, delayOf, ih (attempts + 1)]

/-- The loop never emits a spec-side event: no handle swap, no transition to
Closed, no `ReconnectExhausted`. -/
theorem reconnectGo_no_spec_events (establishOk : ℕ → Bool) :
    ∀ fuel attempts,
      ReconnectEvent.handleSwap ∉ reconnectGo establishOk fuel attempts ∧
      ReconnectEvent.transitionClosed ∉ reconnectGo establishOk fuel attempts ∧
      ReconnectEvent.reconnectExhausted ∉ reconnectGo establishOk fuel attempts := by
  intro fuel
  induction fuel with
  | zero => intro attempts; exact ⟨List.not_mem_nil _, List.not_mem_nil _, List.not_mem_nil _⟩
  | succ n ih =>
    intro attempts
    have h := ih (attempts + 1)
    by_cases hc : establishOk attempts
    · simp [reconnectGo, hc, h.1, h.2.1, h.2.2]
    · simp [reconnectGo, hc, h.1, h.2.1, h.2.2]

/-- C4 (amended): with every establish attempt failing and
`reconnectAttempts = k`, the handler performs exactly k establish attempts
(hence at most k), and after the i-th failure waits `1000 * i` ms (linear
backoff `1×, 2×, …, k×`; the k-th delay follows the final failure). On
exhaustion the loop exits silently: the session is never transitioned to
Closed and no `ReconnectExhausted` condition is surfaced (zero such events,
not one). -/
theorem c4_retry_amended (k : ℕ) (establishOk : ℕ → Bool)
    (hfail : ∀ i, establishOk i = false) :
    ((reconnectOnDisconnected k establishOk).countP isEstablishAttempt) = k ∧
    (reconnectOnDisconnected k establishOk).filterMap delayOf
      = (List.range' 1 k).map (fun i => 1000 * i) ∧
    ReconnectEvent.reconnectExhausted ∉ reconnectOnDisconnected k establishOk ∧
    ReconnectEvent.transitionClosed ∉ reconnectOnDisconnected k establishOk := by
  have h := reconnectGo_no_spec_events establishOk k 0
  exact ⟨reconnectGo_countP_attempts establishOk k 0,
    reconnectGo_delays establishOk k 0, h.2.2, h.2.1⟩

/-- Witness for C4 (amended): `reconnectAttempts = 3`, every attempt failing —
3 establish attempts, delays `[1000, 2000, 3000]` ms, no ReconnectExhausted
and no Closed transition. -/
theorem c4_retry_amended_witness :
    ((reconnectOnDisconnected 3 (fun _ => false)).countP isEstablishAttempt) = 3 ∧
    (reconnectOnDisconnected 3 (fun _ => false)).filterMap delayOf = [1000, 2000, 3000] ∧
    ReconnectEvent.reconnectExhausted ∉ reconnectOnDisconnected 3 (fun _ => false) ∧
    ReconnectEvent.transitionClosed ∉ reconnectOnDisconnected 3 (fun _ => false) := by
  have h := c4_retry_amended 3 (fun _ => false) (fun _ => rfl)
  refine ⟨h.1, ?_, h.2.2.1, h.2.2.2⟩
  rw [h.2.1]
  decide

/-! ## Handle replacement on reconnection success (lines 21, 32, 96-97) -/

/-- The two binding kinds of the JavaScript variables involved. -/
inductive BindingKind where
  | constBinding
  | letBinding
deriving DecidableEq, Repr

/-- Binding kind of `pc`: declared `const` at line 21. -/
def pcBinding : BindingKind := BindingKind.constBinding

/-- Binding kind of `dc`: declared `const` at line 32. -/
def dcBinding : BindingKind := BindingKind.constBinding

/-- Strict-mode JavaScript assignment to a binding: a `let` binding takes the
new value; assigning to a `const` binding throws
`TypeError: Assignment to constant variable.` (TypeScript rejects it as
TS2588). -/
def assignBinding (kind : BindingKind) (newValue : ℕ) : Except JsError ℕ :=
  match kind with
  | BindingKind.constBinding =>
      Except.error (JsError.typeError "Assignment to constant variable.")
  | BindingKind.letBinding => Except.ok newValue

/-- The session's current transport and control-channel handles, identified by
numeric ids. -/
structure SessionHandles where
  pcId : ℕ
  dcId : ℕ
deriving DecidableEq, Repr

/-- The success path of a reconnection attempt (lines 96-98): assign the new
peer connection to `pc`, the new data channel to `dc`, then `break`. Returns
the handles the session holds afterwards, or the JavaScript error thrown. -/
def reconnectSuccessSwap (h : SessionHandles) (newPcId newDcId : ℕ) :
    Except JsError SessionHandles := do
  let p ← assignBinding pcBinding newPcId
  let d ← assignBinding dcBinding newDcId
  pure { pcId := p, dcId := d }

/-- The handles the session still exposes after the success path ran and its
error (if any) was caught by the surrounding `catch` (line 99): on an error
the old handles survive unchanged. -/
def handlesAfterSuccessPath (h : SessionHandles) (newPcId newDcId : ℕ) : SessionHandles :=
  match reconnectSuccessSwap h newPcId newDcId with
  | Except.ok h' => h'
  | Except.error _ => h

/-! ## Theorems: C5 (atomic handle replacement) -/

/-- C5: a successful establish attempt does not replace the session's handles.
Concretely, with old handles `(pc#1, dc#1)` and a freshly established pair
`(pc#2, dc#2)`, the success path throws
`TypeError: Assignment to constant variable.` at the `pc = newPc` assignment
(`pc` and `dc` are `const`), the surrounding `catch` swallows the error as if
the attempt had failed, and the session still holds `(pc#1, dc#1)` — the
observers stay bound to the stale handles. -/
theorem c5_swap_never_happens :
    reconnectSuccessSwap { pcId := 1, dcId := 1 } 2 2
      = Except.error (JsError.typeError "Assignment to constant variable.") ∧
    handlesAfterSuccessPath { pcId := 1, dcId := 1 } 2 2 = { pcId := 1, dcId := 1 } := by
  exact ⟨rfl, rfl⟩

/-! ## Guarded channel sends (lines 64-72, 76-82, 154-162, 164-172)

All four outbound paths (audio_data, heartbeat, context_update, context_alert)
use the same pattern: `if (dc.readyState === 'open') { dc.send(...) }`.
`RTCDataChannel.send` itself throws `InvalidStateError` on a channel that is
not open; the guard means it is never reached in that state, so nothing is
sent, nothing is queued and nothing is thrown.
-/

/-- A data channel: its `readyState` string and the log of messages actually
handed to `send` (the only observable effect of a send). -/
structure DataChannel where
  readyState : String
  sentMessages : List ControlMessage
deriving DecidableEq, Repr

/-- Raw `RTCDataChannel.send`: appends to the wire log when the channel is
open, throws `InvalidStateError` otherwise. -/
def dcSend (dc : DataChannel) (msg : ControlMessage) : Except JsError DataChannel :=
  if dc.readyState = "open" then
    Except.ok { dc with sentMessages := dc.sentMessages ++ [msg] }
  else Except.error JsError.invalidStateError

/-- The guarded send pattern used by every outbound path of
`createRealtimeConnection`: send only when `dc.readyState === 'open'`,
otherwise do nothing. -/
def sendIfOpen (dc : DataChannel) (msg : ControlMessage) : Except JsError DataChannel :=
  if dc.readyState = "open" then dcSend dc msg else Except.ok dc

/-- A sequence of guarded sends, stopping at the first thrown error. -/
def sendAllIfOpen (dc : DataChannel) (msgs : List ControlMessage) :
    Except JsError DataChannel :=
  List.foldlM sendIfOpen dc msgs

/-! ## Theorems: C6 (send is a no-op when the channel is not open) -/

/-- C6: on a channel whose `readyState` is not `"open"`, a guarded send of any
control message (heartbeat, audio_data, context_update or context_alert) never
throws and leaves the channel — including its wire log — exactly as it was,
and any sequence of repeated sends likewise returns the unchanged channel with
no error and no queued or sent message. -/
theorem c6_send_noop_when_not_open (dc : DataChannel) (hno : dc.readyState ≠ "open") :
    (∀ msg : ControlMessage, sendIfOpen dc msg = Except.ok dc) ∧
    (∀ msgs : List ControlMessage, sendAllIfOpen dc msgs = Except.ok dc) := by
  have hone : ∀ msg : ControlMessage, sendIfOpen dc msg = Except.ok dc := by
    intro msg
    rw [sendIfOpen, if_neg hno]
  refine ⟨hone, ?_⟩
  intro msgs
  induction msgs with
  | nil => rfl
  | cons m rest ih =>
    rw [sendAllIfOpen, List.foldlM_cons, hone m]
    exact ih

/-- Witness for C6: a closed channel with an empty wire log; a heartbeat and a
context_update sent twice in a row leave it untouched and raise nothing. -/
theorem c6_send_noop_when_not_open_witness :
    sendIfOpen { readyState := "closed", sentMessages := [] }
        { type := ControlType.heartbeat, data := none, timestamp := 1000 }
      = Except.ok { readyState := "closed", sentMessages := [] } ∧
    sendAllIfOpen { readyState := "closed", sentMessages := [] }
        [{ type := ControlType.context_update, data := some "ctx", timestamp := 1 },
         { type := ControlType.context_update, data := some "ctx", timestamp := 1 }]
      = Except.ok { readyState := "closed", sentMessages := [] } := by
  have h := c6_send_noop_when_not_open { readyState := "closed", sentMessages := [] }
    (by decide)
  exact ⟨h.1 _, h.2 _⟩

/-! ## Keepalive heartbeat (lines 76-82)

`if (options.heartbeatInterval) { setInterval(..., options.heartbeatInterval) }`
— the truthy test means an absent or zero interval installs no timer at all.
Each tick sends `{type: 'heartbeat', timestamp: Date.now()}` when the channel
is open; with the timer started at t = 0 and an idealized clock, the i-th tick
runs at `(i+1) * interval` ms and stamps that time.
-/

/-- Is the heartbeat timer installed? (the truthy test of line 76). -/
def heartbeatTimerInstalled (heartbeatInterval : Option ℕ) : Bool :=
  match heartbeatInterval with
  | none => false
  | some n => n != 0

/-- The messages sent by one heartbeat tick: tick `i` fires at
`(i + 1) * interval` ms and sends iff the channel is open at that moment
(`readyStates i` is the channel's `readyState` then). -/
def heartbeatTick (interval : ℕ) (readyStates : ℕ → String) (i : ℕ) : List ControlMessage :=
  if readyStates i = "open" then
    [{ type := ControlType.heartbeat, data := none, timestamp := (i + 1) * interval }]
  else []

/-- All heartbeat messages sent during the first `n` timer ticks, given the
configured `heartbeatInterval` option: none at all when the option is unset or
zero (no timer is installed). -/
def heartbeatMessages (heartbeatInterval : Option ℕ) (readyStates : ℕ → String) (n : ℕ) :
    List ControlMessage :=
  match heartbeatInterval with
  | none => []
  | some interval =>
      if interval = 0 then []
      else (List.range n).flatMap (heartbeatTick interval readyStates)

/-! ## Theorems: C7 (heartbeat cadence and monotone timestamps) -/

/-- C7: with `heartbeatInterval` unset or zero no heartbeat is ever sent; with
a nonzero interval and the channel open throughout, every tick sends exactly
one heartbeat message stamped `(i + 1) * interval` — one every interval — and
the successive timestamps are strictly increasing. -/
theorem c7_heartbeat_schedule :
    (∀ (readyStates : ℕ → String) (n : ℕ), heartbeatMessages none readyStates n = []) ∧
    (∀ (readyStates : ℕ → String) (n : ℕ), heartbeatMessages (some 0) readyStates n = []) ∧
    (∀ (interval : ℕ) (readyStates : ℕ → String) (n : ℕ), interval ≠ 0 →
      (∀ i, readyStates i = "open") →
      heartbeatMessages (some interval) readyStates n
        = (List.range n).map (fun i =>
            { type := ControlType.heartbeat, data := none, timestamp := (i + 1) * interval }) ∧
      ((heartbeatMessages (some interval) readyStates n).map ControlMessage.timestamp).Pairwise
        (· < ·)) := by
  refine ⟨fun _ _ => rfl, fun _ _ => rfl, ?_⟩
  intro interval readyStates n hiv hopen
  have hmsgs : heartbeatMessages (some interval) readyStates n
      = (List.range n).map (fun i =>
          { type := ControlType.heartbeat, data := none, timestamp := (i + 1) * interval }) := by
    rw [heartbeatMessages, if_neg hiv]
    induction n with
    | zero => rfl
    | succ m ih =>
      rw [List.range_succ, List.flatMap_append, List.map_append, ih]
      simp [heartbeatTick, hopen m]
  refine ⟨hmsgs, ?_⟩
  rw [hmsgs, List.map_map]
  have : (ControlMessage.timestamp ∘ fun i =>
      ({ type := ControlType.heartbeat, data := none, timestamp := (i + 1) * interval }
        : ControlMessage)) = fun i => (i + 1) * interval := rfl
  rw [this]
  refine List.Pairwise.map _ ?_ (List.pairwise_lt_range n)
  intro a b hab
  exact (Nat.mul_lt_mul_right (Nat.pos_of_ne_zero hiv)).mpr (Nat.succ_lt_succ hab)

/-- Witness for C7: interval 1000 ms, channel open, three ticks — heartbeats
stamped 1000, 2000, 3000 ms, strictly increasing. -/
theorem c7_heartbeat_schedule_witness :
    heartbeatMessages (some 1000) (fun _ => "open") 3
      = [{ type := ControlType.heartbeat, data := none, timestamp := 1000 },
         { type := ControlType.heartbeat, data := none, timestamp := 2000 },
         { type := ControlType.heartbeat, data := none, timestamp := 3000 }] ∧
    ((heartbeatMessages (some 1000) (fun _ => "open") 3).map ControlMessage.timestamp).Pairwise
      (· < ·) := by
  have h := c7_heartbeat_schedule.2.2 1000 (fun _ => "open") 3 (by decide) (fun _ => rfl)
  refine ⟨?_, h.2⟩
  rw [h.1]
  decide

/-! ## Optimizer write-back into the processor (lines 57-60, 129-135)

`processor` exists iff `options.enableConcurrentProcessing` is truthy
(lines 59-60). At the end of every quality sampling tick the recomputed
parameters are pushed back: `if (processor) processor.setVADEnabled(
config.qualityThreshold > 0.7)` (lines 133-135) — and this is the tick's only
write into the processor.
-/

/-- The audio processor state visible to this file: its voice-activity-detection
toggle (`setVADEnabled` is the only processor method the sampling tick calls). -/
structure ProcessorState where
  vadEnabled : Bool
deriving DecidableEq, Repr

/-- The processor's `setVADEnabled(b)` method. -/
def setVADEnabled (p : ProcessorState) (b : Bool) : ProcessorState :=
  { p with vadEnabled := b }

/-- Which processor the connection holds (lines 57-60): one exists exactly when
`options.enableConcurrentProcessing` is truthy; `p0` is its state as built by
`new ConcurrentProcessor()`. -/
def processorFor (enableConcurrentProcessing : Option Bool) (p0 : ProcessorState) :
    Option ProcessorState :=
  match enableConcurrentProcessing with
  | some true => some p0
  | _ => none

/-- The write-back at the end of a quality sampling tick (lines 132-135):
`if (processor) { processor.setVADEnabled(config.qualityThreshold > 0.7) }`,
where `qualityThreshold` is the value the optimizer just recomputed. -/
def qualityTickWriteBack (processor : Option ProcessorState) (qualityThreshold : ℚ) :
    Option ProcessorState :=
  match processor with
  | some p => some (setVADEnabled p (decide (qualityThreshold > 7 / 10)))
  | none => none

/-! ## Theorems: C8 (VAD write-back coupling) -/

/-- C8: when concurrent processing is enabled the sampling tick leaves the
processor's VAD toggle exactly at `qualityThreshold > 0.7` (whatever it was
before); when it is disabled there is no processor and the tick writes nothing
back. -/
theorem c8_vad_writeback (qualityThreshold : ℚ) :
    (∀ p : ProcessorState,
      qualityTickWriteBack (some p) qualityThreshold
        = some { vadEnabled := decide (qualityThreshold > 7 / 10) }) ∧
    (∀ (e : Option Bool) (p0 : ProcessorState), e ≠ some true →
      qualityTickWriteBack (processorFor e p0) qualityThreshold = none) := by
  constructor
  · intro p
    rfl
  · intro e p0 he
    have hnone : processorFor e p0 = none := by
      cases e with
      | none => rfl
      | some b =>
        cases b with
        | false => rfl
        | true => exact absurd rfl he
    rw [hnone]
    rfl

/-- Witness for C8: threshold `4/5 > 7/10` turns VAD on when a processor exists
(whatever its previous toggle), and with concurrent processing disabled
(`enableConcurrentProcessing = some false`) nothing is written back. -/
theorem c8_vad_writeback_witness :
    qualityTickWriteBack (some { vadEnabled := false }) (4 / 5)
      = some { vadEnabled := true } ∧
    qualityTickWriteBack (processorFor (some false) { vadEnabled := false }) (4 / 5) = none := by
  have h := c8_vad_writeback (4 / 5)
  have h1 := h.1 { vadEnabled := false }
  have h2 := h.2 (some false) { vadEnabled := false } (by decide)
  refine ⟨?_, h2⟩
  rw [h1]
  norm_num

/-! ## Connectivity handler installation (lines 85-87)

`if (options.reconnectAttempts) { pc.oniceconnectionstatechange = ... }` —
the truthy test means an absent or zero `reconnectAttempts` installs no
connectivity-state handler at all, so a later `disconnected` transition runs
nothing: zero establish attempts, and the timers installed earlier
(heartbeat if enabled, and the 5000 ms quality sampler) keep running.
-/

/-- The connection options object (lines 5-10), each field optional as in the
TypeScript interface. -/
structure ConnectionOptions where
  enableVAD : Option Bool
  enableConcurrentProcessing : Option Bool
  reconnectAttempts : Option ℕ
  heartbeatInterval : Option ℕ
deriving DecidableEq, Repr

/-- Is the `oniceconnectionstatechange` reconnection handler installed?
(the truthy test of line 85). -/
def reconnectHandlerInstalled (o : ConnectionOptions) : Bool :=
  match o.reconnectAttempts with
  | none => false
  | some k => k != 0

/-- The interval timers running after establishment: the heartbeat timer when
its option is truthy (line 76) and always the 5000 ms quality sampler
(line 114). -/
def establishTimers (o : ConnectionOptions) : List String :=
  (if heartbeatTimerInstalled o.heartbeatInterval then ["heartbeat"] else []) ++
    ["qualitySampler"]

/-- The session state observable around a connectivity-lost event: the running
timers and the current handles. -/
structure SessionState where
  timers : List String
  handles : SessionHandles
deriving DecidableEq, Repr

/-- What a `disconnected` ICE-connectivity transition does to the session:
runs the reconnection loop if (and only if) the handler was installed, and
never touches the timers or — per `reconnectSuccessSwap` — the handles. -/
def onConnectivityLost (o : ConnectionOptions) (s : SessionState) (establishOk : ℕ → Bool) :
    SessionState × List ReconnectEvent :=
  if reconnectHandlerInstalled o then
    (s, reconnectOnDisconnected (o.reconnectAttempts.getD 0) establishOk)
  else (s, [])

/-! ## Theorems: C10 (absent/zero reconnectAttempts installs no handler) -/

/-- C10: when `reconnectAttempts` is absent or zero, no connectivity-state
handler is installed, and a connectivity-lost transition does nothing:
zero establish attempts, zero events of any kind, and the session state —
including the timers installed at establishment, which keep running — is left
exactly as it was. -/
theorem c10_no_reconnect_handler (o : ConnectionOptions) (s : SessionState)
    (establishOk : ℕ → Bool)
    (h : o.reconnectAttempts = none ∨ o.reconnectAttempts = some 0) :
    reconnectHandlerInstalled o = false ∧
    onConnectivityLost o s establishOk = (s, []) ∧
    ((onConnectivityLost o s establishOk).2.countP isEstablishAttempt = 0 ∧
      (onConnectivityLost o s establishOk).1.timers = s.timers) := by
  have hni : reconnectHandlerInstalled o = false := by
    rcases h with h | h
    · rw [reconnectHandlerInstalled, h]
    · rw [reconnectHandlerInstalled, h]
      rfl
  have hrun : onConnectivityLost o s establishOk = (s, []) := by
    rw [onConnectivityLost, hni]
    rfl
  exact ⟨hni, hrun, by rw [hrun]; exact ⟨rfl, rfl⟩⟩

/-- Witness for C10: options with `reconnectAttempts` absent and a 1000 ms
heartbeat; the connectivity-lost transition leaves the heartbeat and quality
sampler timers running and performs no establish attempt. -/
theorem c10_no_reconnect_handler_witness :
    reconnectHandlerInstalled
        { enableVAD := none, enableConcurrentProcessing := none,
          reconnectAttempts := none, heartbeatInterval := some 1000 } = false ∧
    onConnectivityLost
        { enableVAD := none, enableConcurrentProcessing := none,
          reconnectAttempts := none, heartbeatInterval := some 1000 }
        { timers := ["heartbeat", "qualitySampler"], handles := { pcId := 1, dcId := 1 } }
        (fun _ => true)
      = ({ timers := ["heartbeat", "qualitySampler"], handles := { pcId := 1, dcId := 1 } },
         []) := by
  have h := c10_no_reconnect_handler
    { enableVAD := none, enableConcurrentProcessing := none,
      reconnectAttempts := none, heartbeatInterval := some 1000 }
    { timers := ["heartbeat", "qualitySampler"], handles := { pcId := 1, dcId := 1 } }
    (fun _ => true) (Or.inl rfl)
  exact ⟨h.1, h.2.1⟩

end RealtimeConnection

